import Mathlib

/-!
Shallow embedding of the `open_payroll` ink! contract
(`src/contracts/lib.rs`) and verification of its specification.

Machine integers (`u32` block numbers, `u128` balances) are modelled as
`Nat`; subtraction is `Nat` truncating subtraction, and the theorems carry
the `current >= genesis` / `block >= last_updated_period_block` invariants
that the host's monotonic block clock guarantees, so no subtraction here is
ever asked to go below zero.  Storage `Mapping`s are association lists with
unique keys; `BTreeMap` is a key-sorted association list.  A Rust `panic`
(`unwrap` of `None`) is modelled as `none` in an `Option`-valued result.
-/

/-- Modelled from the spec: the error enum lives in `errors.rs`, which is not
part of the sources; its variants are taken verbatim from the spec's error
taxonomy (section 7). -/
inductive Error where
  | NotOwner
  | ContractIsPaused
  | InvalidParams
  | InvalidMultipliersLength
  | DuplicatedBeneficiaries
  | DuplicatedMultipliers
  | AccountNotFound
  | MultiplierNotFound
  | AccountAlreadyExists
  | MultiplierAlreadyDeactivated
  | MaxBeneficiariesExceeded
  | MaxMultipliersExceeded
  | NotEnoughBalanceInTreasury
  | ClaimedAmountIsBiggerThanAvailable
  | TransferFailed
  | NotAllClaimedInPeriod
  | MultiplierNotDeactivated
  | MultiplierNotExpired
  | PaymentsNotUpToDate
deriving DecidableEq, Repr

abbrev AccountId := Nat

abbrev MultiplierId := Nat

abbrev Multiplier := Nat

abbrev Balance := Nat

abbrev BlockNumber := Nat

def MAX_BENEFICIARIES : Nat := 100

def MAX_MULTIPLIERS : Nat := 10

/-- Lookup in an association list, modelling `Mapping::get`. -/
def mapGet {α β : Type} [DecidableEq α] : List (α × β) → α → Option β
  | [], _ => none
  | (k0, v0) :: rest, k => if k0 = k then some v0 else mapGet rest k

/-- Insert/overwrite in an association list, modelling `Mapping::insert`. -/
def mapInsert {α β : Type} [DecidableEq α] : List (α × β) → α → β → List (α × β)
  | [], k, v => [(k, v)]
  | (k0, v0) :: rest, k, v =>
    if k0 = k then (k, v) :: rest else (k0, v0) :: mapInsert rest k v

/-- Delete a key, modelling `Mapping::remove`. -/
def mapRemove {α β : Type} [DecidableEq α] (m : List (α × β)) (k : α) : List (α × β) :=
  m.filter (fun kv => kv.1 ≠ k)

/-- Membership test, modelling `Mapping::contains`. -/
def mapContains {α β : Type} [DecidableEq α] (m : List (α × β)) (k : α) : Bool :=
  (mapGet m k).isSome

/-- `BaseMultiplier { name, valid_until_block }`; `None` means perpetually
active. -/
structure BaseMultiplier where
  name : String
  valid_until_block : Option BlockNumber
deriving DecidableEq, Repr

/-- `BaseMultiplier::new(name)`. -/
def BaseMultiplier.new (name : String) : BaseMultiplier :=
  { name := name, valid_until_block := none }

structure Beneficiary where
  account_id : AccountId
  multipliers : List (MultiplierId × Multiplier)
  unclaimed_payments : Balance
  last_updated_period_block : BlockNumber
deriving DecidableEq, Repr

structure InitialBeneficiary where
  account_id : AccountId
  multipliers : List (MultiplierId × Multiplier)
deriving DecidableEq, Repr

structure ClaimsInPeriod where
  period : Nat
  total_claims : Nat
deriving DecidableEq, Repr

/-- The contract storage struct. -/
structure OpenPayroll where
  transfered_owner : Option AccountId
  owner : AccountId
  beneficiaries : List (AccountId × Beneficiary)
  beneficiaries_accounts : List AccountId
  periodicity : Nat
  base_payment : Balance
  initial_block : Nat
  paused_block_at : Option Nat
  next_multiplier_id : MultiplierId
  base_multipliers : List (MultiplierId × BaseMultiplier)
  multipliers_list : List MultiplierId
  claims_in_period : ClaimsInPeriod
deriving DecidableEq, Repr

/-- The host environment of a single call: caller identity, current block
height, treasury balance, and whether the external transfer primitive
succeeds when invoked. -/
structure Env where
  caller : AccountId
  block : BlockNumber
  balance : Balance
  transfer_ok : Bool
deriving DecidableEq, Repr

/-- Sorted insert (overwriting an existing key), modelling
`BTreeMap::insert`. -/
def btreeInsert : List (MultiplierId × Multiplier) → MultiplierId → Multiplier →
    List (MultiplierId × Multiplier)
  | [], k, v => [(k, v)]
  | (k0, v0) :: rest, k, v =>
    if k < k0 then (k, v) :: (k0, v0) :: rest
    else if k = k0 then (k, v) :: rest
    else (k0, v0) :: btreeInsert rest k v

/-- `vec_to_btreemap`. -/
def vec_to_btreemap (vec : List (MultiplierId × Multiplier)) :
    List (MultiplierId × Multiplier) :=
  vec.foldl (fun m kv => btreeInsert m kv.1 kv.2) []

/-- Insertion step of a stable sort on `Nat` keys. -/
def insertSortedNat (x : Nat) : List Nat → List Nat
  | [] => [x]
  | y :: ys => if x ≤ y then x :: y :: ys else y :: insertSortedNat x ys

/-- Stable sort by value, modelling `sort_by_key` on account ids. -/
def sortNat (l : List Nat) : List Nat :=
  l.foldr insertSortedNat []

/-- Adjacent-duplicate scan over a sorted list. -/
def hasAdjDup : List Nat → Bool
  | [] => false
  | [_] => false
  | x :: y :: rest => x = y || hasAdjDup (y :: rest)

def insertSortedByKey (x : MultiplierId × Multiplier) :
    List (MultiplierId × Multiplier) → List (MultiplierId × Multiplier)
  | [] => [x]
  | y :: ys => if x.1 ≤ y.1 then x :: y :: ys else y :: insertSortedByKey x ys

/-- Stable sort by key, modelling `sort_by_key` on multiplier pairs. -/
def sortByKey (l : List (MultiplierId × Multiplier)) :
    List (MultiplierId × Multiplier) :=
  l.foldr insertSortedByKey []

def hasAdjDupKey : List (MultiplierId × Multiplier) → Bool
  | [] => false
  | [_] => false
  | x :: y :: rest => x.1 = y.1 || hasAdjDupKey (y :: rest)

/-- `check_no_duplicate_beneficiaries`: sort, then scan adjacent pairs. -/
def check_no_duplicate_beneficiaries (beneficiaries : List AccountId) :
    Option Error :=
  if hasAdjDup (sortNat beneficiaries) then some Error.DuplicatedBeneficiaries
  else none

/-- `check_no_duplicate_multipliers`: sort by key, then scan adjacent
pairs. -/
def check_no_duplicate_multipliers
    (multipliers : List (MultiplierId × Multiplier)) : Option Error :=
  if hasAdjDupKey (sortByKey multipliers) then some Error.DuplicatedMultipliers
  else none

/-- The pure period clock:
`current_block - ((current_block - self.initial_block) % self.periodicity)`. -/
def get_current_period_initial_block_at
    (current_block initial_block periodicity : Nat) : Nat :=
  current_block - ((current_block - initial_block) % periodicity)

/-- `get_current_period_initial_block`, with the current block passed
explicitly. -/
def OpenPayroll.get_current_period_initial_block (s : OpenPayroll)
    (current_block : Nat) : Nat :=
  get_current_period_initial_block_at current_block s.initial_block s.periodicity

/-- `get_next_block_period`. -/
def OpenPayroll.get_next_block_period (s : OpenPayroll) (current_block : Nat) : Nat :=
  s.get_current_period_initial_block current_block + s.periodicity

/-- `ensure_owner`. -/
def OpenPayroll.ensure_owner (s : OpenPayroll) (caller : AccountId) : Option Error :=
  if s.owner ≠ caller then some Error.NotOwner else none

/-- `is_paused`. -/
def OpenPayroll.is_paused (s : OpenPayroll) : Bool :=
  s.paused_block_at.isSome

/-- `ensure_is_not_paused`. -/
def OpenPayroll.ensure_is_not_paused (s : OpenPayroll) : Option Error :=
  if s.is_paused then some Error.ContractIsPaused else none

/-- `check_multipliers_are_valid`: walks the supplied pairs; a missing
registry id is `MultiplierNotFound`, a scheduled one is
`MultiplierAlreadyDeactivated`. -/
def OpenPayroll.check_multipliers_are_valid (s : OpenPayroll) :
    List (MultiplierId × Multiplier) → Option Error
  | [] => none
  | (multiplier_id, _) :: rest =>
    match mapGet s.base_multipliers multiplier_id with
    | none => some Error.MultiplierNotFound
    | some m =>
      if m.valid_until_block.isSome then some Error.MultiplierAlreadyDeactivated
      else s.check_multipliers_are_valid rest

/-- `_update_claims_in_period` as a pure function on the tally. -/
def updateClaimsInPeriod (c : ClaimsInPeriod) (claiming_period_block : Nat) :
    ClaimsInPeriod :=
  if claiming_period_block = c.period then
    { c with total_claims := c.total_claims + 1 }
  else
    { period := claiming_period_block, total_claims := 1 }

/-- `ensure_all_claimed_in_period`.  The source compares `total_claims`
(`u32`) with `beneficiaries_accounts.len() as u32`, hence the `% 2^32` on
the length. -/
def OpenPayroll.ensure_all_claimed_in_period (s : OpenPayroll)
    (current_block : Nat) : Option Error :=
  let claiming_period_block := s.get_current_period_initial_block current_block
  if (claiming_period_block = s.claims_in_period.period ∧
      s.claims_in_period.total_claims = s.beneficiaries_accounts.length % 4294967296)
      ∨ claiming_period_block = 0 then
    none
  else
    some Error.NotAllClaimedInPeriod

/-- The multiplier sum of the `filtered_multipliers == true` branch of
`_get_amount_to_claim_for_one_period`: every stored weight. -/
def unfilteredSum (multipliers : List (MultiplierId × Multiplier)) : Nat :=
  (multipliers.map Prod.snd).sum

/-- The multiplier sum of the `filtered_multipliers == false` branch:
each stored id is looked up in the registry (`unwrap`, so a missing id is a
panic = `none`) and its weight counts only when `valid_until_block` is
`None`. -/
def filteredSumCode (reg : List (MultiplierId × BaseMultiplier)) :
    List (MultiplierId × Multiplier) → Option Nat
  | [] => some 0
  | (k, v) :: rest =>
    match mapGet reg k with
    | none => none
    | some m =>
      match filteredSumCode reg rest with
      | none => none
      | some t => some (if m.valid_until_block = none then v + t else t)

/-- `_get_amount_to_claim_for_one_period`; `none` is the `unwrap` panic of
the unfiltered branch. -/
def OpenPayroll.amount_to_claim_for_one_period (s : OpenPayroll)
    (beneficiary : Beneficiary) (filtered_multipliers : Bool) : Option Balance :=
  match (if beneficiary.multipliers.isEmpty then some 1
         else if filtered_multipliers then some (unfilteredSum beneficiary.multipliers)
         else filteredSumCode s.base_multipliers beneficiary.multipliers) with
  | none => none
  | some final_multiplier => some (final_multiplier * s.base_payment / 100)

/-- `_get_amount_to_claim_in_block`; `none` is a panic (beneficiary missing
from storage, or a registry `unwrap` in the unfiltered sum). -/
def OpenPayroll.amount_to_claim_in_block (s : OpenPayroll)
    (account_id : AccountId) (filtered_multipliers : Bool) (block : Nat) :
    Option Balance :=
  match mapGet s.beneficiaries account_id with
  | none => none
  | some beneficiary =>
    let blocks_since_last_payment := block - beneficiary.last_updated_period_block
    let unclaimed_periods := blocks_since_last_payment / s.periodicity
    if unclaimed_periods = 0 then some beneficiary.unclaimed_payments
    else
      match s.amount_to_claim_for_one_period beneficiary filtered_multipliers with
      | none => none
      | some payment_per_period =>
        some (payment_per_period * unclaimed_periods + beneficiary.unclaimed_payments)

/-- `get_amount_to_claim` (read-only query). -/
def OpenPayroll.get_amount_to_claim (s : OpenPayroll) (account_id : AccountId)
    (current_block : Nat) : Option (Except Error Balance) :=
  if mapContains s.beneficiaries account_id = false then
    some (Except.error Error.AccountNotFound)
  else
    match s.amount_to_claim_in_block account_id false current_block with
    | none => none
    | some v => some (Except.ok v)

/-- The `retain` sweep of `claim_payment`: a key absent from the registry is
an `unwrap` panic (`none`); otherwise a pair is kept when its multiplier is
not deactivated or not yet past its `valid_until_block`. -/
def sweepMultipliers (reg : List (MultiplierId × BaseMultiplier))
    (current_block : Nat) :
    List (MultiplierId × Multiplier) → Option (List (MultiplierId × Multiplier))
  | [] => some []
  | (k, v) :: rest =>
    match mapGet reg k with
    | none => none
    | some m =>
      match sweepMultipliers reg current_block rest with
      | none => none
      | some r =>
        match m.valid_until_block with
        | none => some ((k, v) :: r)
        | some a => if a > current_block then some ((k, v) :: r) else some r

/-- Body of `claim_payment`, threading raw storage: `none` is a panic;
`some (some e, s)` returns `Err e` with storage as written so far;
`some (none, s)` is success.  Note that `_get_amount_to_claim` re-reads the
stored beneficiary, so the sweep (which only touched the local copy) does
not influence `total_payment`; the swept map is only written back. -/
def OpenPayroll.claim_payment_body (s : OpenPayroll) (env : Env)
    (account_id : AccountId) (amount : Balance) :
    Option (Option Error × OpenPayroll) :=
  match s.ensure_is_not_paused with
  | some e => some (some e, s)
  | none =>
  match mapGet s.beneficiaries account_id with
  | none => some (some Error.AccountNotFound, s)
  | some beneficiary =>
    match sweepMultipliers s.base_multipliers env.block beneficiary.multipliers with
    | none => none
    | some swept =>
      match s.amount_to_claim_in_block account_id true env.block with
      | none => none
      | some total_payment =>
        if amount > total_payment then
          some (some Error.ClaimedAmountIsBiggerThanAvailable, s)
        else if amount > env.balance then
          some (some Error.NotEnoughBalanceInTreasury, s)
        else
          let claiming_period_block := s.get_current_period_initial_block env.block
          let s1 :=
            if beneficiary.last_updated_period_block ≠ claiming_period_block then
              { s with claims_in_period :=
                  updateClaimsInPeriod s.claims_in_period claiming_period_block }
            else s
          let written : Beneficiary :=
            { account_id := account_id
              multipliers := swept
              unclaimed_payments := total_payment - amount
              last_updated_period_block := claiming_period_block }
          let s2 :=
            { s1 with beneficiaries := mapInsert s1.beneficiaries account_id written }
          if amount > 0 then
            if env.transfer_ok then some (none, s2)
            else some (some Error.TransferFailed, s2)
          else some (none, s2)

/-- ink! 4 message dispatch: when a message returns `Err`, every storage
write of the call is reverted, so the observable state is the state at
entry. -/
def messageCommit (s : OpenPayroll) (r : Option (Option Error × OpenPayroll)) :
    Option (Option Error × OpenPayroll) :=
  match r with
  | none => none
  | some (none, s2) => some (none, s2)
  | some (some e, _) => some (some e, s)

/-- `claim_payment` as observed by a caller (message dispatch applied to the
body). -/
def OpenPayroll.claim_payment (s : OpenPayroll) (env : Env)
    (account_id : AccountId) (amount : Balance) :
    Option (Option Error × OpenPayroll) :=
  messageCommit s (s.claim_payment_body env account_id amount)

/-- `deactivate_multiplier`.  The body never reads `env.caller`. -/
def OpenPayroll.deactivate_multiplier (s : OpenPayroll) (env : Env)
    (multiplier_id : MultiplierId) : Option Error × OpenPayroll :=
  match mapGet s.base_multipliers multiplier_id with
  | none => (some Error.MultiplierNotFound, s)
  | some multiplier =>
    if multiplier.valid_until_block.isSome then
      (some Error.MultiplierAlreadyDeactivated, s)
    else
      let valid_until_block := s.get_current_period_initial_block env.block + s.periodicity
      let written := { multiplier with valid_until_block := some valid_until_block }
      (none,
        { s with base_multipliers := mapInsert s.base_multipliers multiplier_id written })

/-- `delete_unused_multiplier`.  The body never reads `env.caller`. -/
def OpenPayroll.delete_unused_multiplier (s : OpenPayroll) (env : Env)
    (multiplier_id : MultiplierId) : Option Error × OpenPayroll :=
  match mapGet s.base_multipliers multiplier_id with
  | none => (some Error.MultiplierNotFound, s)
  | some multiplier =>
    match multiplier.valid_until_block with
    | none => (some Error.MultiplierNotDeactivated, s)
    | some valid_until =>
      if env.block > valid_until then (some Error.MultiplierNotExpired, s)
      else
        match s.ensure_all_claimed_in_period env.block with
        | some e => (some e, s)
        | none =>
          (none,
            { s with
                multipliers_list := s.multipliers_list.filter (fun x => x ≠ multiplier_id)
                base_multipliers := mapRemove s.base_multipliers multiplier_id })

/-- `add_beneficiary`. -/
def OpenPayroll.add_beneficiary (s : OpenPayroll) (env : Env)
    (account_id : AccountId) (multipliers : List (MultiplierId × Multiplier)) :
    Option Error × OpenPayroll :=
  match s.ensure_owner env.caller with
  | some e => (some e, s)
  | none =>
  if mapContains s.beneficiaries account_id then (some Error.AccountAlreadyExists, s)
  else if s.beneficiaries_accounts.length + 1 > MAX_BENEFICIARIES then
    (some Error.MaxBeneficiariesExceeded, s)
  else
    match s.check_multipliers_are_valid multipliers with
    | some e => (some e, s)
    | none =>
      match check_no_duplicate_multipliers multipliers with
      | some e => (some e, s)
      | none =>
        let m := vec_to_btreemap multipliers
        let written : Beneficiary :=
          { account_id := account_id
            multipliers := m
            unclaimed_payments := 0
            last_updated_period_block := s.get_current_period_initial_block env.block }
        (none,
          { s with
              beneficiaries := mapInsert s.beneficiaries account_id written
              beneficiaries_accounts := s.beneficiaries_accounts ++ [account_id] })

/-- `update_beneficiary`; `none` is a panic inside
`_get_amount_to_claim(account_id, false)`.  The final
`beneficiaries_accounts.push(account_id)` of the source is preserved as
written. -/
def OpenPayroll.update_beneficiary (s : OpenPayroll) (env : Env)
    (account_id : AccountId) (multipliers : List (MultiplierId × Multiplier)) :
    Option (Option Error × OpenPayroll) :=
  match s.ensure_owner env.caller with
  | some e => some (some e, s)
  | none =>
  if mapContains s.beneficiaries account_id = false then
    some (some Error.AccountNotFound, s)
  else if s.beneficiaries_accounts.length + 1 > MAX_BENEFICIARIES then
    some (some Error.MaxBeneficiariesExceeded, s)
  else
    match s.check_multipliers_are_valid multipliers with
    | some e => some (some e, s)
    | none =>
      match check_no_duplicate_multipliers multipliers with
      | some e => some (some e, s)
      | none =>
        let m := vec_to_btreemap multipliers
        match s.amount_to_claim_in_block account_id false env.block with
        | none => none
        | some unclaimed_payments =>
          let written : Beneficiary :=
            { account_id := account_id
              multipliers := m
              unclaimed_payments := unclaimed_payments
              last_updated_period_block := s.get_current_period_initial_block env.block }
          some (none,
            { s with
                beneficiaries := mapInsert s.beneficiaries account_id written
                beneficiaries_accounts := s.beneficiaries_accounts ++ [account_id] })

/-- `remove_beneficiary`; `none` is the `position(..).unwrap()` panic when
the account is absent from the ordered vector. -/
def OpenPayroll.remove_beneficiary (s : OpenPayroll) (env : Env)
    (account_id : AccountId) : Option (Option Error × OpenPayroll) :=
  match s.ensure_owner env.caller with
  | some e => some (some e, s)
  | none =>
  if mapContains s.beneficiaries account_id = false then
    some (some Error.AccountNotFound, s)
  else if account_id ∈ s.beneficiaries_accounts then
    some (none,
      { s with
          beneficiaries := mapRemove s.beneficiaries account_id
          beneficiaries_accounts := s.beneficiaries_accounts.erase account_id })
  else none

/-- `update_base_payment`. -/
def OpenPayroll.update_base_payment (s : OpenPayroll) (env : Env)
    (base_payment : Balance) : Option Error × OpenPayroll :=
  match s.ensure_owner env.caller with
  | some e => (some e, s)
  | none =>
  if base_payment = 0 then (some Error.InvalidParams, s)
  else
    match s.ensure_all_claimed_in_period env.block with
    | some e => (some e, s)
    | none => (none, { s with base_payment := base_payment })

/-- `update_periodicity`. -/
def OpenPayroll.update_periodicity (s : OpenPayroll) (env : Env)
    (periodicity : Nat) : Option Error × OpenPayroll :=
  match s.ensure_owner env.caller with
  | some e => (some e, s)
  | none =>
  if periodicity = 0 then (some Error.InvalidParams, s)
  else
    match s.ensure_all_claimed_in_period env.block with
    | some e => (some e, s)
    | none => (none, { s with periodicity := periodicity })

/-- The per-beneficiary validation and construction loop of the
constructor. -/
def buildBeneficiaries (nmult : Nat) (initial_block_number : Nat) :
    List InitialBeneficiary →
    Except Error (List (AccountId × Beneficiary) × List AccountId)
  | [] => Except.ok ([], [])
  | beneficiary_data :: rest =>
    if beneficiary_data.multipliers.length ≠ nmult then
      Except.error Error.InvalidMultipliersLength
    else
      match check_no_duplicate_multipliers beneficiary_data.multipliers with
      | some e => Except.error e
      | none =>
        match buildBeneficiaries nmult initial_block_number rest with
        | Except.error e => Except.error e
        | Except.ok (m, accounts) =>
          Except.ok
            ((beneficiary_data.account_id,
              { account_id := beneficiary_data.account_id
                multipliers := vec_to_btreemap beneficiary_data.multipliers
                unclaimed_payments := 0
                last_updated_period_block := initial_block_number }) :: m,
             beneficiary_data.account_id :: accounts)

/-- The constructor `new`. -/
def OpenPayroll.new (caller : AccountId) (initial_block_number : Nat)
    (periodicity : Nat) (base_payment : Balance)
    (initial_base_multipliers : List String)
    (initial_beneficiaries : List InitialBeneficiary) :
    Except Error OpenPayroll :=
  if base_payment = 0 ∨ periodicity = 0 then Except.error Error.InvalidParams
  else
    match check_no_duplicate_beneficiaries
        (initial_beneficiaries.map (fun b => b.account_id)) with
    | some e => Except.error e
    | none =>
      if initial_beneficiaries.length > MAX_BENEFICIARIES then
        Except.error Error.MaxBeneficiariesExceeded
      else if initial_base_multipliers.length > MAX_MULTIPLIERS then
        Except.error Error.MaxMultipliersExceeded
      else
        let n := initial_base_multipliers.length
        let base_multipliers :=
          ((List.range n).zip initial_base_multipliers).map
            (fun p => (p.1, BaseMultiplier.new p.2))
        let multipliers_list := List.range n
        match buildBeneficiaries n initial_block_number initial_beneficiaries with
        | Except.error e => Except.error e
        | Except.ok (beneficiaries, accounts) =>
          Except.ok
            { transfered_owner := none
              owner := caller
              beneficiaries := beneficiaries
              beneficiaries_accounts := accounts
              periodicity := periodicity
              base_payment := base_payment
              initial_block := initial_block_number
              paused_block_at := none
              next_multiplier_id := n
              base_multipliers := base_multipliers
              multipliers_list := multipliers_list
              claims_in_period := { period := 0, total_claims := 0 } }

/-- The spec's beneficiary-index invariant: the ordered account list has the
same size as the registry's key set and holds no duplicate ids. -/
def beneficiaryIndexInvariant (s : OpenPayroll) : Prop :=
  s.beneficiaries_accounts.length = s.beneficiaries.length ∧
  s.beneficiaries_accounts.Nodup

/-- A contract state whose sole multiplier (id 0) has been deactivated with
`valid_until_block = Some 2`: owner 0, periodicity 2, genesis block 0, no
beneficiaries. -/
def stateDeactivatedMult : OpenPayroll :=
  { transfered_owner := none
    owner := 0
    beneficiaries := []
    beneficiaries_accounts := []
    periodicity := 2
    base_payment := 1000
    initial_block := 0
    paused_block_at := none
    next_multiplier_id := 1
    base_multipliers := [(0, { name := "Seniority", valid_until_block := some 2 })]
    multipliers_list := [0]
    claims_in_period := { period := 0, total_claims := 0 } }

/-- A contract state whose sole multiplier (id 0) is still active: owner 0,
periodicity 2, genesis block 0, no beneficiaries. -/
def stateActiveMult : OpenPayroll :=
  { transfered_owner := none
    owner := 0
    beneficiaries := []
    beneficiaries_accounts := []
    periodicity := 2
    base_payment := 1000
    initial_block := 0
    paused_block_at := none
    next_multiplier_id := 1
    base_multipliers := [(0, { name := "Seniority", valid_until_block := none })]
    multipliers_list := [0]
    claims_in_period := { period := 0, total_claims := 0 } }

/-- A contract state with a single registered beneficiary (account 5, no
multiplier weights): owner 0, periodicity 2, genesis block 0. -/
def stateOneBeneficiary : OpenPayroll :=
  { transfered_owner := none
    owner := 0
    beneficiaries :=
      [(5, { account_id := 5, multipliers := [], unclaimed_payments := 0,
             last_updated_period_block := 0 })]
    beneficiaries_accounts := [5]
    periodicity := 2
    base_payment := 1000
    initial_block := 0
    paused_block_at := none
    next_multiplier_id := 0
    base_multipliers := []
    multipliers_list := []
    claims_in_period := { period := 0, total_claims := 0 } }

/-- The state produced by the constructor from one multiplier name and one
beneficiary whose weight list names the nonexistent multiplier id 5. -/
def stateMissingMult : OpenPayroll :=
  { transfered_owner := none
    owner := 0
    beneficiaries :=
      [(7, { account_id := 7, multipliers := [(5, 10)], unclaimed_payments := 0,
             last_updated_period_block := 0 })]
    beneficiaries_accounts := [7]
    periodicity := 2
    base_payment := 1000
    initial_block := 0
    paused_block_at := none
    next_multiplier_id := 1
    base_multipliers := [(0, { name := "Seniority", valid_until_block := none })]
    multipliers_list := [0]
    claims_in_period := { period := 0, total_claims := 0 } }

/-- Spec-side relevance filter for read-only queries: a stored weight id is
relevant when its registry entry exists and is not deactivated. -/
def multiplierActiveIn (reg : List (MultiplierId × BaseMultiplier))
    (k : MultiplierId) : Bool :=
  match mapGet reg k with
  | some m => m.valid_until_block = none
  | none => false

/-- The owed-amount formula exactly as the spec words it, parameterised by
the relevant-weight sum: `per_period = (sum, or 1 if the weight mapping is
empty) * base_payment / 100` with truncating division; owed is the pure
carryover when no period elapsed, else `per_period * elapsed +
unclaimed_payments`. -/
def specOwedAmount (s : OpenPayroll) (b : Beneficiary)
    (relevantWeightSum : Nat) (at_block : Nat) : Nat :=
  let elapsed := (at_block - b.last_updated_period_block) / s.periodicity
  let per_period :=
    (if b.multipliers = [] then 1 else relevantWeightSum) * s.base_payment / 100
  if elapsed = 0 then b.unclaimed_payments
  else per_period * elapsed + b.unclaimed_payments

/-- The spec's own worked scenario: periodicity 2, base payment 1000, one
beneficiary (account 5) with weights 100 and 20 on two active multipliers,
registered at genesis. -/
def stateTwoWeights : OpenPayroll :=
  { transfered_owner := none
    owner := 0
    beneficiaries :=
      [(5, { account_id := 5, multipliers := [(0, 100), (1, 20)],
             unclaimed_payments := 0, last_updated_period_block := 0 })]
    beneficiaries_accounts := [5]
    periodicity := 2
    base_payment := 1000
    initial_block := 0
    paused_block_at := none
    next_multiplier_id := 2
    base_multipliers :=
      [(0, { name := "Seniority", valid_until_block := none }),
       (1, { name := "Performance", valid_until_block := none })]
    multipliers_list := [0, 1]
    claims_in_period := { period := 0, total_claims := 0 } }

theorem mapGet_mapInsert_self {α β : Type} [DecidableEq α]
    (m : List (α × β)) (k : α) (v : β) :
    mapGet (mapInsert m k v) k = some v := by
  induction m with
  | nil => simp [mapInsert, mapGet]
  | cons head tail ih =>
    obtain ⟨k0, v0⟩ := head
    by_cases h : k0 = k <;> simp [mapInsert, mapGet, h, ih]

theorem filteredSumCode_eq_of_present (reg : List (MultiplierId × BaseMultiplier))
    (l : List (MultiplierId × Multiplier))
    (h : ∀ kv ∈ l, (mapGet reg kv.1).isSome) :
    filteredSumCode reg l =
      some (((l.filter (fun kv => multiplierActiveIn reg kv.1)).map Prod.snd).sum) := by
  induction l with
  | nil => simp [filteredSumCode]
  | cons head tail ih =>
    obtain ⟨k, v⟩ := head
    have hk : (mapGet reg k).isSome := h (k, v) (List.mem_cons_self _ _)
    obtain ⟨m, hm⟩ := Option.isSome_iff_exists.mp hk
    have htail := ih (fun kv hkv => h kv (List.mem_cons_of_mem _ hkv))
    cases hv : m.valid_until_block with
    | none => simp [filteredSumCode, hm, htail, multiplierActiveIn, hv]
    | some x => simp [filteredSumCode, hm, htail, multiplierActiveIn, hv]

theorem sweepMultipliers_eq_none_of_missing
    (reg : List (MultiplierId × BaseMultiplier)) (current_block : Nat)
    (l : List (MultiplierId × Multiplier))
    (h : ∃ kv ∈ l, mapGet reg kv.1 = none) :
    sweepMultipliers reg current_block l = none := by
  induction l with
  | nil => rcases h with ⟨kv, hmem, _⟩; cases hmem
  | cons head tail ih =>
    obtain ⟨k, v⟩ := head
    rcases h with ⟨kv, hmem, hnone⟩
    rcases List.mem_cons.mp hmem with h1 | h2
    · subst h1
      simp [sweepMultipliers, hnone]
    · have htail := ih ⟨kv, h2, hnone⟩
      cases hk : mapGet reg k <;> simp [sweepMultipliers, hk, htail]

/-- C1: the claim is refuted by the code: `delete_unused_multiplier` has the
expiry comparison inverted.  On a multiplier with `valid_until_block = Some 2`
the call at block 5 (strictly past the deadline, so deletable per the claim)
fails with `MultiplierNotExpired`, while the call at block 1 (before the
deadline, so per the claim it must fail with `MultiplierNotExpired`)
succeeds and removes the multiplier from both the list and the registry. -/
theorem C1_delete_unused_multiplier_expiry_inverted :
    (stateDeactivatedMult.delete_unused_multiplier
        { caller := 0, block := 5, balance := 0, transfer_ok := true } 0).1 =
      some Error.MultiplierNotExpired ∧
    stateDeactivatedMult.delete_unused_multiplier
        { caller := 0, block := 1, balance := 0, transfer_ok := true } 0 =
      (none, { stateDeactivatedMult with multipliers_list := [], base_multipliers := [] }) := by
  decide

/-- C2: the claim is refuted by the code: neither `deactivate_multiplier`
nor `delete_unused_multiplier` calls `ensure_owner`, so a caller (99)
distinct from the owner (0) gets `Ok` from both and each call mutates the
contract state. -/
theorem C2_multiplier_ops_lack_owner_check :
    (99 ≠ stateActiveMult.owner ∧
      (stateActiveMult.deactivate_multiplier
          { caller := 99, block := 0, balance := 0, transfer_ok := true } 0).1 = none ∧
      (stateActiveMult.deactivate_multiplier
          { caller := 99, block := 0, balance := 0, transfer_ok := true } 0).2 ≠
        stateActiveMult) ∧
    (99 ≠ stateDeactivatedMult.owner ∧
      (stateDeactivatedMult.delete_unused_multiplier
          { caller := 99, block := 1, balance := 0, transfer_ok := true } 0).1 = none ∧
      (stateDeactivatedMult.delete_unused_multiplier
          { caller := 99, block := 1, balance := 0, transfer_ok := true } 0).2 ≠
        stateDeactivatedMult) := by
  decide

/-- C3: the claim is refuted by the code: `update_beneficiary` pushes the
account id onto `beneficiaries_accounts` again, so updating the sole
registered beneficiary (account 5) of a valid state yields an index `[5, 5]`
with duplicates and length 2 against a registry of 1 key. -/
theorem C3_update_beneficiary_breaks_index_invariant :
    beneficiaryIndexInvariant stateOneBeneficiary ∧
    stateOneBeneficiary.update_beneficiary
        { caller := 0, block := 0, balance := 0, transfer_ok := true } 5 [] =
      some (none, { stateOneBeneficiary with beneficiaries_accounts := [5, 5] }) ∧
    ¬ beneficiaryIndexInvariant
        { stateOneBeneficiary with beneficiaries_accounts := [5, 5] } := by
  refine ⟨⟨rfl, by decide⟩, by decide, ?_⟩
  intro hinv
  exact absurd hinv.2 (by decide)

/-- C9: the period-start function `h - ((h - genesis) % periodicity)` is
idempotent for every positive periodicity and every height at or after the
genesis height. -/
theorem C9_period_start_idempotent (h g per : Nat) (_hper : 0 < per) (_hg : g ≤ h) :
    get_current_period_initial_block_at
        (get_current_period_initial_block_at h g per) g per =
      get_current_period_initial_block_at h g per := by
  unfold get_current_period_initial_block_at
  have e1 : h - (h - g) % per - g = h - g - (h - g) % per := Nat.sub_right_comm h _ g
  have e2 : h - g - (h - g) % per = per * ((h - g) / per) :=
    Nat.sub_eq_of_eq_add (Nat.div_add_mod (h - g) per).symm
  have e3 : (h - (h - g) % per - g) % per = 0 := by
    rw [e1, e2]
    exact Nat.mul_mod_right per _
  rw [e3, Nat.sub_zero]

theorem C9_period_start_idempotent_witness :
    get_current_period_initial_block_at
        (get_current_period_initial_block_at 7 1 3) 1 3 =
      get_current_period_initial_block_at 7 1 3 :=
  C9_period_start_idempotent 7 1 3 (by decide) (by decide)

/-- C10: a stored beneficiary whose weight mapping holds a multiplier id
absent from the registry makes `claim_payment` panic (`unwrap` of `None`)
in the expiry sweep instead of returning an error; and the constructor,
which checks only the length and duplicate-freedom of each initial weight
list, builds exactly such a state from a beneficiary naming the
nonexistent id 5 against a registry holding only id 0. -/
theorem C10_missing_multiplier_id_panics_in_claim :
    (∀ (s : OpenPayroll) (env : Env) (a : AccountId) (b : Beneficiary)
        (amount : Balance),
      s.paused_block_at = none →
      mapGet s.beneficiaries a = some b →
      (∃ kv ∈ b.multipliers, mapGet s.base_multipliers kv.1 = none) →
      s.claim_payment_body env a amount = none) ∧
    OpenPayroll.new 0 0 2 1000 ["Seniority"]
        [{ account_id := 7, multipliers := [(5, 10)] }] =
      Except.ok stateMissingMult ∧
    mapGet stateMissingMult.beneficiaries 7 =
      some { account_id := 7, multipliers := [(5, 10)], unclaimed_payments := 0,
             last_updated_period_block := 0 } ∧
    mapGet stateMissingMult.base_multipliers 5 = none := by
  refine ⟨?_, by rfl, by decide, by decide⟩
  intro s env a b amount hp hb hmiss
  unfold OpenPayroll.claim_payment_body
  simp [OpenPayroll.ensure_is_not_paused, OpenPayroll.is_paused, hp, hb,
    sweepMultipliers_eq_none_of_missing s.base_multipliers env.block b.multipliers hmiss]

theorem C10_missing_multiplier_id_panics_in_claim_witness :
    stateMissingMult.claim_payment_body
      { caller := 7, block := 0, balance := 0, transfer_ok := true } 7 0 = none :=
  C10_missing_multiplier_id_panics_in_claim.1 stateMissingMult
    { caller := 7, block := 0, balance := 0, transfer_ok := true } 7
    { account_id := 7, multipliers := [(5, 10)], unclaimed_payments := 0,
      last_updated_period_block := 0 }
    0 (by decide) (by decide) ⟨(5, 10), by decide, by decide⟩

/-- C7: `ensure_all_claimed_in_period` succeeds exactly when the current
period start is 0 or the stored tally matches (period equal to the current
period start, total claims equal to the beneficiary-index size); otherwise
it fails with `NotAllClaimedInPeriod`; and for an owner call with a nonzero
value, `update_base_payment` and `update_periodicity` fail with
`NotAllClaimedInPeriod` exactly when the guard fails. -/
theorem C7_settlement_guard (s : OpenPayroll) (env : Env)
    (hlen : s.beneficiaries_accounts.length < 4294967296) :
    (s.ensure_all_claimed_in_period env.block = none ↔
      (s.get_current_period_initial_block env.block = 0 ∨
        (s.get_current_period_initial_block env.block = s.claims_in_period.period ∧
         s.claims_in_period.total_claims = s.beneficiaries_accounts.length))) ∧
    (s.ensure_all_claimed_in_period env.block = none ∨
      s.ensure_all_claimed_in_period env.block = some Error.NotAllClaimedInPeriod) ∧
    (env.caller = s.owner → ∀ v, v ≠ 0 →
      ((s.update_base_payment env v).1 = some Error.NotAllClaimedInPeriod ↔
        ¬ s.ensure_all_claimed_in_period env.block = none) ∧
      ((s.update_periodicity env v).1 = some Error.NotAllClaimedInPeriod ↔
        ¬ s.ensure_all_claimed_in_period env.block = none)) := by
  have hkey : s.ensure_all_claimed_in_period env.block =
      (if (s.get_current_period_initial_block env.block = s.claims_in_period.period ∧
            s.claims_in_period.total_claims = s.beneficiaries_accounts.length) ∨
          s.get_current_period_initial_block env.block = 0 then none
       else some Error.NotAllClaimedInPeriod) := by
    unfold OpenPayroll.ensure_all_claimed_in_period
    rw [Nat.mod_eq_of_lt hlen]
  rw [hkey]
  by_cases hc : (s.get_current_period_initial_block env.block = s.claims_in_period.period ∧
        s.claims_in_period.total_claims = s.beneficiaries_accounts.length) ∨
      s.get_current_period_initial_block env.block = 0
  · rw [if_pos hc]
    refine ⟨⟨fun _ => by tauto, fun _ => rfl⟩, Or.inl rfl, ?_⟩
    intro hcaller v hv
    unfold OpenPayroll.update_base_payment OpenPayroll.update_periodicity
      OpenPayroll.ensure_owner
    rw [hkey] at *
    simp [hcaller, hv, if_pos hc]
  · rw [if_neg hc]
    refine ⟨⟨fun h => Option.noConfusion h, fun h => absurd (by tauto) hc⟩,
      Or.inr rfl, ?_⟩
    intro hcaller v hv
    unfold OpenPayroll.update_base_payment OpenPayroll.update_periodicity
      OpenPayroll.ensure_owner
    rw [hkey] at *
    simp [hcaller, hv, if_neg hc]

theorem C7_settlement_guard_witness :
    (stateOneBeneficiary.ensure_all_claimed_in_period 0 = none ↔
      (stateOneBeneficiary.get_current_period_initial_block 0 = 0 ∨
        (stateOneBeneficiary.get_current_period_initial_block 0 =
            stateOneBeneficiary.claims_in_period.period ∧
         stateOneBeneficiary.claims_in_period.total_claims =
            stateOneBeneficiary.beneficiaries_accounts.length))) ∧
    (stateOneBeneficiary.ensure_all_claimed_in_period 0 = none ∨
      stateOneBeneficiary.ensure_all_claimed_in_period 0 =
        some Error.NotAllClaimedInPeriod) ∧
    ((0 : Nat) = stateOneBeneficiary.owner → ∀ v, v ≠ 0 →
      ((stateOneBeneficiary.update_base_payment
          { caller := 0, block := 0, balance := 0, transfer_ok := true } v).1 =
            some Error.NotAllClaimedInPeriod ↔
        ¬ stateOneBeneficiary.ensure_all_claimed_in_period 0 = none) ∧
      ((stateOneBeneficiary.update_periodicity
          { caller := 0, block := 0, balance := 0, transfer_ok := true } v).1 =
            some Error.NotAllClaimedInPeriod ↔
        ¬ stateOneBeneficiary.ensure_all_claimed_in_period 0 = none)) :=
  C7_settlement_guard stateOneBeneficiary
    { caller := 0, block := 0, balance := 0, transfer_ok := true } (by decide)

theorem amount_one_period_true (s : OpenPayroll) (b : Beneficiary) :
    s.amount_to_claim_for_one_period b true =
      some ((if b.multipliers = [] then 1 else (b.multipliers.map Prod.snd).sum) *
        s.base_payment / 100) := by
  unfold OpenPayroll.amount_to_claim_for_one_period unfilteredSum
  cases h : b.multipliers <;> simp [h]

theorem amount_one_period_false (s : OpenPayroll) (b : Beneficiary)
    (hpresent : ∀ kv ∈ b.multipliers, (mapGet s.base_multipliers kv.1).isSome) :
    s.amount_to_claim_for_one_period b false =
      some ((if b.multipliers = [] then 1
             else ((b.multipliers.filter
                (fun kv => multiplierActiveIn s.base_multipliers kv.1)).map
                  Prod.snd).sum) * s.base_payment / 100) := by
  unfold OpenPayroll.amount_to_claim_for_one_period
  by_cases hempty : b.multipliers = []
  · simp [hempty]
  · rw [filteredSumCode_eq_of_present s.base_multipliers b.multipliers hpresent]
    cases h : b.multipliers with
    | nil => exact absurd h hempty
    | cons x xs => simp [h]

/-- C4: for every stored beneficiary and every block at or after its
`last_updated_period_block`, the computed owed amount is exactly the spec's
formula: carryover alone when `floor((at_block - last) / periodicity) = 0`,
else `per_period * elapsed + carryover`, with
`per_period = (relevant weight sum, or 1 on an empty weight mapping) *
base_payment / 100` under truncating division — for both the claim path
(`use_all_weights`, every stored weight) and the read-only path (weights
filtered to currently active multipliers). -/
theorem C4_owed_amount_formula (s : OpenPayroll) (a : AccountId) (b : Beneficiary)
    (block : Nat)
    (hb : mapGet s.beneficiaries a = some b)
    (_hblk : b.last_updated_period_block ≤ block)
    (hpresent : ∀ kv ∈ b.multipliers, (mapGet s.base_multipliers kv.1).isSome) :
    s.amount_to_claim_in_block a true block =
      some (specOwedAmount s b ((b.multipliers.map Prod.snd).sum) block) ∧
    s.amount_to_claim_in_block a false block =
      some (specOwedAmount s b
        (((b.multipliers.filter
            (fun kv => multiplierActiveIn s.base_multipliers kv.1)).map
              Prod.snd).sum) block) := by
  constructor
  · simp only [OpenPayroll.amount_to_claim_in_block, hb,
      amount_one_period_true, specOwedAmount]
    split_ifs <;> rfl
  · simp only [OpenPayroll.amount_to_claim_in_block, hb,
      amount_one_period_false s b hpresent, specOwedAmount]
    split_ifs <;> rfl

theorem C4_owed_amount_formula_witness :
    stateTwoWeights.amount_to_claim_in_block 5 true 3 = some 1200 ∧
    stateTwoWeights.amount_to_claim_in_block 5 false 3 = some 1200 := by
  have h := C4_owed_amount_formula stateTwoWeights 5
    { account_id := 5, multipliers := [(0, 100), (1, 20)],
      unclaimed_payments := 0, last_updated_period_block := 0 }
    3 (by decide) (by decide) (by decide)
  exact ⟨h.1.trans (by decide), h.2.trans (by decide)⟩

/-- C5: for a registered beneficiary of an unpaused contract whose computed
owed amount is `total`: any claim of `amount <= total` (treasury and
transfer permitting) succeeds and writes back
`unclaimed_payments = total - amount` (0 when `amount = total`) and
`last_updated_period_block` equal to the current period start, while any
claim of `amount > total` fails with `ClaimedAmountIsBiggerThanAvailable`
leaving the raw storage untouched. -/
theorem C5_claim_payment_amount_cases (s : OpenPayroll) (env : Env)
    (a : AccountId) (b : Beneficiary) (swept : List (MultiplierId × Multiplier))
    (total amount : Balance)
    (hp : s.paused_block_at = none)
    (hb : mapGet s.beneficiaries a = some b)
    (hs : sweepMultipliers s.base_multipliers env.block b.multipliers = some swept)
    (ht : s.amount_to_claim_in_block a true env.block = some total) :
    (amount ≤ total → amount ≤ env.balance → (0 < amount → env.transfer_ok = true) →
      ∃ s2, s.claim_payment_body env a amount = some (none, s2) ∧
        mapGet s2.beneficiaries a =
          some { account_id := a, multipliers := swept,
                 unclaimed_payments := total - amount,
                 last_updated_period_block :=
                   s.get_current_period_initial_block env.block }) ∧
    (total < amount →
      s.claim_payment_body env a amount =
        some (some Error.ClaimedAmountIsBiggerThanAvailable, s)) := by
  have hnp : s.ensure_is_not_paused = none := by
    simp [OpenPayroll.ensure_is_not_paused, OpenPayroll.is_paused, hp]
  constructor
  · intro hle hbal htr
    unfold OpenPayroll.claim_payment_body
    simp only [hnp, hb, hs, ht]
    rw [if_neg (Nat.not_lt.mpr hle), if_neg (Nat.not_lt.mpr hbal)]
    by_cases hz : amount > 0
    · rw [if_pos hz, htr hz]
      simp only [if_true]
      exact ⟨_, rfl, mapGet_mapInsert_self _ _ _⟩
    · rw [if_neg hz]
      exact ⟨_, rfl, mapGet_mapInsert_self _ _ _⟩
  · intro hlt
    unfold OpenPayroll.claim_payment_body
    simp only [hnp, hb, hs, ht]
    rw [if_pos hlt]

/-- C6: when the external transfer primitive fails inside `claim_payment`,
the dispatched call returns `TransferFailed` and the observable contract
state is exactly the state at entry (the ink! dispatcher reverts every
storage write of a message that returns `Err`). -/
theorem C6_transfer_failure_state_unchanged (s : OpenPayroll) (env : Env)
    (a : AccountId) (b : Beneficiary) (swept : List (MultiplierId × Multiplier))
    (total amount : Balance)
    (hp : s.paused_block_at = none)
    (hb : mapGet s.beneficiaries a = some b)
    (hs : sweepMultipliers s.base_multipliers env.block b.multipliers = some swept)
    (ht : s.amount_to_claim_in_block a true env.block = some total)
    (hle : amount ≤ total) (hbal : amount ≤ env.balance)
    (hpos : 0 < amount) (hfail : env.transfer_ok = false) :
    s.claim_payment env a amount = some (some Error.TransferFailed, s) := by
  have hnp : s.ensure_is_not_paused = none := by
    simp [OpenPayroll.ensure_is_not_paused, OpenPayroll.is_paused, hp]
  have hbody : ∃ sx, s.claim_payment_body env a amount =
      some (some Error.TransferFailed, sx) := by
    unfold OpenPayroll.claim_payment_body
    simp only [hnp, hb, hs, ht]
    rw [if_neg (Nat.not_lt.mpr hle), if_neg (Nat.not_lt.mpr hbal), if_pos hpos, hfail]
    exact ⟨_, rfl⟩
  obtain ⟨sx, hbody⟩ := hbody
  unfold OpenPayroll.claim_payment messageCommit
  rw [hbody]

/-- C8: a successful claim (any amount, 0 included) rewrites the settlement
tally exactly when the beneficiary's previous `last_updated_period_block`
differs from the current period start; the recording increments
`total_claims` when the stored period already equals the claim period and
otherwise resets the tally to that period with `total_claims = 1`. -/
theorem C8_settlement_event_on_claim (s : OpenPayroll) (env : Env)
    (a : AccountId) (b : Beneficiary) (swept : List (MultiplierId × Multiplier))
    (total amount : Balance)
    (hp : s.paused_block_at = none)
    (hb : mapGet s.beneficiaries a = some b)
    (hs : sweepMultipliers s.base_multipliers env.block b.multipliers = some swept)
    (ht : s.amount_to_claim_in_block a true env.block = some total)
    (hle : amount ≤ total) (hbal : amount ≤ env.balance)
    (htr : env.transfer_ok = true) :
    ∃ s2, s.claim_payment_body env a amount = some (none, s2) ∧
      s2.claims_in_period =
        (if b.last_updated_period_block ≠ s.get_current_period_initial_block env.block
         then
           (if s.claims_in_period.period = s.get_current_period_initial_block env.block
            then { period := s.get_current_period_initial_block env.block,
                   total_claims := s.claims_in_period.total_claims + 1 }
            else { period := s.get_current_period_initial_block env.block,
                   total_claims := 1 })
         else s.claims_in_period) := by
  have hnp : s.ensure_is_not_paused = none := by
    simp [OpenPayroll.ensure_is_not_paused, OpenPayroll.is_paused, hp]
  have hclaims : (if b.last_updated_period_block ≠
        s.get_current_period_initial_block env.block then
        { s with claims_in_period := updateClaimsInPeriod s.claims_in_period (s.get_current_period_initial_block env.block) }
      else s).claims_in_period =
        (if b.last_updated_period_block ≠ s.get_current_period_initial_block env.block
         then
           (if s.claims_in_period.period = s.get_current_period_initial_block env.block
            then { period := s.get_current_period_initial_block env.block,
                   total_claims := s.claims_in_period.total_claims + 1 }
            else { period := s.get_current_period_initial_block env.block,
                   total_claims := 1 })
         else s.claims_in_period) := by
    by_cases hne : b.last_updated_period_block ≠
        s.get_current_period_initial_block env.block
    · simp only [if_pos hne]
      unfold updateClaimsInPeriod
      by_cases hpp : s.claims_in_period.period =
          s.get_current_period_initial_block env.block
      · rw [if_pos hpp.symm, if_pos hpp]
        cases hcp : s.claims_in_period with
        | mk p tc =>
          rw [hcp] at hpp
          simp at hpp
          simp [hpp]
      · rw [if_neg (fun hx => hpp hx.symm), if_neg hpp]
    · simp only [if_neg hne]
  unfold OpenPayroll.claim_payment_body
  simp only [hnp, hb, hs, ht]
  rw [if_neg (Nat.not_lt.mpr hle), if_neg (Nat.not_lt.mpr hbal)]
  by_cases hz : amount > 0
  · rw [if_pos hz, htr]
    exact ⟨_, rfl, hclaims⟩
  · rw [if_neg hz]
    exact ⟨_, rfl, hclaims⟩

theorem C5_claim_payment_amount_cases_witness :
    ∃ s2, stateTwoWeights.claim_payment_body
        { caller := 5, block := 3, balance := 100000, transfer_ok := true } 5 1190 =
      some (none, s2) ∧
      mapGet s2.beneficiaries 5 =
        some { account_id := 5, multipliers := [(0, 100), (1, 20)],
               unclaimed_payments := 1200 - 1190,
               last_updated_period_block :=
                 stateTwoWeights.get_current_period_initial_block 3 } :=
  (C5_claim_payment_amount_cases stateTwoWeights
    { caller := 5, block := 3, balance := 100000, transfer_ok := true } 5
    { account_id := 5, multipliers := [(0, 100), (1, 20)],
      unclaimed_payments := 0, last_updated_period_block := 0 }
    [(0, 100), (1, 20)] 1200 1190
    (by decide) (by decide) (by decide) (by decide)).1
    (by decide) (by decide) (fun _ => rfl)

theorem C6_transfer_failure_state_unchanged_witness :
    stateTwoWeights.claim_payment
        { caller := 5, block := 3, balance := 100000, transfer_ok := false } 5 1190 =
      some (some Error.TransferFailed, stateTwoWeights) :=
  C6_transfer_failure_state_unchanged stateTwoWeights
    { caller := 5, block := 3, balance := 100000, transfer_ok := false } 5
    { account_id := 5, multipliers := [(0, 100), (1, 20)],
      unclaimed_payments := 0, last_updated_period_block := 0 }
    [(0, 100), (1, 20)] 1200 1190
    (by decide) (by decide) (by decide) (by decide) (by decide) (by decide)
    (by decide) rfl

theorem C8_settlement_event_on_claim_witness :
    ∃ s2, stateTwoWeights.claim_payment_body
        { caller := 5, block := 3, balance := 100000, transfer_ok := true } 5 0 =
      some (none, s2) ∧
      s2.claims_in_period =
        (if (0 : Nat) ≠ stateTwoWeights.get_current_period_initial_block 3 then
          (if stateTwoWeights.claims_in_period.period =
              stateTwoWeights.get_current_period_initial_block 3 then
            { period := stateTwoWeights.get_current_period_initial_block 3,
              total_claims := stateTwoWeights.claims_in_period.total_claims + 1 }
          else { period := stateTwoWeights.get_current_period_initial_block 3,
                 total_claims := 1 })
        else stateTwoWeights.claims_in_period) :=
  C8_settlement_event_on_claim stateTwoWeights
    { caller := 5, block := 3, balance := 100000, transfer_ok := true } 5
    { account_id := 5, multipliers := [(0, 100), (1, 20)],
      unclaimed_payments := 0, last_updated_period_block := 0 }
    [(0, 100), (1, 20)] 1200 0
    (by decide) (by decide) (by decide) (by decide) (by decide) (by decide) rfl
